import Mathlib

/-!
Shallow embedding of the Pipedrive-Data-Sync-Tool repository
(extraction + reconciliation pipeline) and verification of the
frozen claims about it.

Python strings are modelled as Lean `String` / `List Char`;
Python `None`-able values as `Option`; raised exceptions as
`Except`/`Option` error results; Python dicts (both Mongo
documents and the in-memory indexes) as association lists with
Python-dict update semantics (update-in-place on key hit,
append on miss).
-/

namespace Pipedrive

/-! ### Python string primitives -/

/-- Model of Python `str.strip()`: remove leading and trailing whitespace. -/
def py_strip (s : String) : String :=
  ⟨((s.data.dropWhile Char.isWhitespace).reverse.dropWhile Char.isWhitespace).reverse⟩

/-- Python truthiness of a string: `""` is falsy, everything else truthy. -/
def py_truthy (s : String) : Bool := s ≠ ""

/-- Python truthiness of an optional string (`None` and `""` falsy). -/
def py_truthy_opt : Option String → Bool
  | Option.none => false
  | some s => py_truthy s

/-! ### src/utils/cleaning_data.py -/

/-- `clean_phone` (src/utils/cleaning_data.py:4-9): if the input is falsy
return `None`; otherwise keep only digit characters (`re.sub(r"\D", "", _)`)
and return the result when at least 10 digits remain, else `None`. -/
def clean_phone (phone : String) : Option String :=
  if py_truthy phone = false then Option.none
  else
    let digits : List Char := phone.data.filter Char.isDigit
    if digits.length ≥ 10 then some ⟨digits⟩ else Option.none

/-- Matcher for `re.match(r"[^@]+@[^@]+\.[^@]+", s)` (src/utils/cleaning_data.py:17).
`re.match` anchors at the start only, so this accepts any string with a
matching PREFIX: a nonempty run of non-`@` characters, then `@`, then --
inside the following maximal `@`-free run -- a `.` preceded by at least one
character of the run and followed by at least one character of the run. -/
def email_regex_match (cs : List Char) : Bool :=
  decide (cs.takeWhile (fun c => c ≠ '@') ≠ []) &&
  !(cs.dropWhile (fun c => c ≠ '@')).isEmpty &&
  decide ('.' ∈
    ((((cs.dropWhile (fun c => c ≠ '@')).tail).takeWhile
        (fun c => c ≠ '@')).drop 1).dropLast)

/-- `clean_email` (src/utils/cleaning_data.py:12-18): falsy input gives `None`;
otherwise strip whitespace and return the stripped string when the regex
matches a prefix of it, else `None`. -/
def clean_email (email : String) : Option String :=
  if py_truthy email = false then Option.none
  else
    let t := py_strip email
    if email_regex_match t.data then some t else Option.none

/-- Model of Python `str.replace(pat, rep)` for a nonempty pattern:
replace all non-overlapping occurrences left to right.  Fueled by the
length of the subject string (each step consumes at least one character,
so the fuel is never exhausted when initialised with the length). -/
def py_replace_aux (pat rep : List Char) : Nat → List Char → List Char
  | 0, cs => cs
  | fuel + 1, cs =>
    match cs with
    | [] => []
    | c :: rest =>
      if pat.isPrefixOf cs then rep ++ py_replace_aux pat rep fuel (cs.drop pat.length)
      else c :: py_replace_aux pat rep fuel rest

/-- Model of Python `str.replace` on strings. -/
def py_replace (s pat rep : String) : String :=
  ⟨py_replace_aux pat.data rep.data s.data.length s.data⟩

/-- Whether `pat` occurs as a contiguous run anywhere in the list (used to
state when `str.replace` leaves a string unchanged). -/
def has_occurrence (pat : List Char) : List Char → Bool
  | [] => pat.isPrefixOf []
  | c :: rest => pat.isPrefixOf (c :: rest) || has_occurrence pat rest

/-- `clean_benefit_id` (src/utils/cleaning_data.py:21-29): strip whitespace;
if the stripped string starts with `"PURL "` call `str.replace("PURL ", "")`
on it (which removes ALL occurrences, not only the leading one); always
returns a string. -/
def clean_benefit_id (benefit_id : String) : String :=
  let b := py_strip benefit_id
  if ("PURL ".data).isPrefixOf b.data then py_replace b "PURL " "" else b

/-! ### src/models/data_models.py -/

/-- `StageStatus` enum (src/models/data_models.py:6-14). -/
inductive StageStatus
  | TRYING_TO_CONTACT
  | TOOK_APP
  | REC_DOCS_LENDER_CALL
  | FINANCIAL_SCHED
  | COMPLIANCE_SCHED
  | PENDING_PAYMENT
  | PAID
  | SUBMITTED_TO_PROCESSING
deriving DecidableEq

/-- The numeric value of each enum member. -/
def StageStatus.value : StageStatus → Nat
  | .TRYING_TO_CONTACT => 0
  | .TOOK_APP => 1
  | .REC_DOCS_LENDER_CALL => 2
  | .FINANCIAL_SCHED => 3
  | .COMPLIANCE_SCHED => 4
  | .PENDING_PAYMENT => 5
  | .PAID => 6
  | .SUBMITTED_TO_PROCESSING => 7

/-- The `descriptions` dict inside the `description` property
(src/models/data_models.py:18-27), keyed by the numeric value;
`Option.none` models a `KeyError` for an unmapped number. -/
def StageStatus.descriptions : Nat → Option String
  | 0 => some "Trying to Contact"
  | 1 => some "Took App"
  | 2 => some "Rec Docs - Lender Call"
  | 3 => some "Financial Sched"
  | 4 => some "Compliance Shed"
  | 5 => some "Pending Payment"
  | 6 => some "PAID"
  | 7 => some "Sub\x27d to Processing"
  | _ => Option.none

/-- `StageStatus.description` (src/models/data_models.py:16-28):
`descriptions[self.value]`.  The lookup can never miss because every
member's value is a key of the dict (proved below); the `""` default
here is therefore dead code. -/
def StageStatus.description (s : StageStatus) : String :=
  match StageStatus.descriptions s.value with
  | some d => d
  | Option.none => ""

/-- `StageStatus.from_number` (src/models/data_models.py:30-32): the Enum
call `cls(number)` looks the number up among member values and raises
`ValueError` (modelled as `Option.none`) when no member has that value. -/
def StageStatus.from_number (number : Int) : Option StageStatus :=
  if number = 0 then some .TRYING_TO_CONTACT
  else if number = 1 then some .TOOK_APP
  else if number = 2 then some .REC_DOCS_LENDER_CALL
  else if number = 3 then some .FINANCIAL_SCHED
  else if number = 4 then some .COMPLIANCE_SCHED
  else if number = 5 then some .PENDING_PAYMENT
  else if number = 6 then some .PAID
  else if number = 7 then some .SUBMITTED_TO_PROCESSING
  else Option.none

/-! ### Python values and dicts

Mongo documents and JSON-ish values flowing through the reconciliation
scripts are modelled by `PyVal`; dicts are association lists with
Python-dict semantics: lookup finds the (unique) binding, update
overwrites in place, insert appends. -/

inductive PyVal
  | str (s : String)
  | int (n : Int)
  | pynone
  | dict (entries : List (String × PyVal))

/-- Python `d.get(k)`: `none` when the key is absent. -/
def dict_find {α : Type} (d : List (String × α)) (k : String) : Option α :=
  match d.find? (fun e => e.1 = k) with
  | some e => some e.2
  | Option.none => Option.none

/-- Python `d.get(k, default)`. -/
def dict_getD {α : Type} (d : List (String × α)) (k : String) (dflt : α) : α :=
  match dict_find d k with
  | some v => v
  | Option.none => dflt

/-- Python `d[k] = v`: overwrite in place when the key exists, else append. -/
def dict_set {α : Type} : List (String × α) → String → α → List (String × α)
  | [], k, v => [(k, v)]
  | (k2, v2) :: rest, k, v =>
    if k2 = k then (k, v) :: rest else (k2, v2) :: dict_set rest k v

/-- `StageStatus.to_dict` (src/models/data_models.py:34-35). -/
def StageStatus.to_dict (s : StageStatus) : PyVal :=
  .dict [("value", .int s.value), ("description", .str s.description)]

/-! ### Exceptions and the tenacity retry wrapper (src/extraction.py:59-61, 96-98, 208-210)

`get_deals`, `fetch_person_data` and `fetch_deal_data` are each wrapped with
`@retry(stop=stop_after_attempt(3), wait=wait_fixed(300))`.  No `retry=`
argument is given, so tenacity uses its default predicate
`retry_if_exception_type()` = `retry_if_exception_type(Exception)`,
which retries on EVERY `Exception`, not only `httpx.ReadTimeout`; the
`except httpx.ReadTimeout: ... raise` blocks in the function bodies only add
a log line before re-raising.  We model one wrapped call as a function from
the attempt number (1-based) to that attempt's outcome, and the wrapper as a
fueled loop. -/

/-- Exceptions relevant to a wrapped remote call. -/
inductive PyExn
  | readTimeout
  | httpStatusError (code : Nat)
  | otherExn
deriving DecidableEq

/-- Outcome of one attempt of the wrapped call body. -/
inductive AttemptResult (α : Type)
  | ok (v : α)
  | raised (e : PyExn)

/-- What executing the retry-wrapped call produced: the final result
(`Except.error` models the exception escaping the wrapper after retries are
exhausted or the predicate declines to retry), how many attempts ran, and
the total inter-attempt sleep time in seconds. -/
structure RetryOutcome (α : Type) where
  result : Except PyExn α
  attempts : Nat
  totalDelay : Nat

/-- tenacity's default retry predicate `retry_if_exception_type(Exception)`:
retry on any exception. -/
def retry_any_exception (_ : PyExn) : Bool := true

/-- The retry predicate the spec describes: retry only on
read-timeout-class failures. -/
def retry_only_read_timeout : PyExn → Bool
  | .readTimeout => true
  | _ => false

/-- The tenacity retry loop: run attempt `k`; on success stop; on an
exception consult the predicate and remaining fuel, sleeping `delay`
between attempts.  `fuel` is the number of retries still allowed. -/
def tenacity_retry_go {α : Type} (pred : PyExn → Bool) (delay : Nat)
    (f : Nat → AttemptResult α) : Nat → Nat → Nat → RetryOutcome α
  | fuel, k, waited =>
    match f k with
    | .ok v => ⟨.ok v, k, waited⟩
    | .raised e =>
      match fuel with
      | 0 => ⟨.error e, k, waited⟩
      | fuel' + 1 =>
        if pred e then tenacity_retry_go pred delay f fuel' (k + 1) (waited + delay)
        else ⟨.error e, k, waited⟩

/-- `@retry(stop=stop_after_attempt(maxAttempts), wait=wait_fixed(delay), retry=pred)`
applied to a call whose attempt outcomes are given by `f`. -/
def tenacity_retry {α : Type} (maxAttempts delay : Nat) (pred : PyExn → Bool)
    (f : Nat → AttemptResult α) : RetryOutcome α :=
  tenacity_retry_go pred delay f (maxAttempts - 1) 1 0

/-- The wrapper actually applied to `get_deals`, `fetch_person_data` and
`fetch_deal_data`: 3 attempts, 300-second fixed delay, tenacity's default
retry-on-any-exception predicate. -/
def pipedrive_retry {α : Type} (f : Nat → AttemptResult α) : RetryOutcome α :=
  tenacity_retry 3 300 retry_any_exception f

/-! ### src/extraction.py: pagination -/

/-- `httpx.Response.raise_for_status()`: raises (`error`) for every
non-2xx status, returns normally for 2xx. -/
def raise_for_status (status : Nat) : Except Unit Unit :=
  if 200 ≤ status ∧ status ≤ 299 then .ok () else .error ()

/-- The page URL built by the f-string in src/extraction.py:53. -/
def page_url (start : Nat) : String :=
  "https://shc2.pipedrive.com/api/v1/deals?start=" ++ toString start ++ "&limit=100"

/-- `get_total_pages` (src/extraction.py:37-55), given the summary
response's status code and reported `total_count`: on non-200 status call
`raise_for_status` (fatal for non-2xx); otherwise compute
`math.ceil(total_count / 100)` pages and build one URL per page with
offset `p * 100`.  `math.ceil` over true division equals ceiling
division `(t + 99) / 100` on naturals. -/
def get_total_pages (status : Nat) (total_count : Nat) : Except Unit (List String) := do
  if status ≠ 200 then raise_for_status status
  let total_pages := (total_count + 99) / 100
  pure ((List.range total_pages).map (fun p => page_url (p * 100)))

/-! ### src/extraction.py: records written by `save_data_to_mongodb` -/

/-- Pydantic `PersonInfo` (src/models/data_models.py:39-44). -/
structure PersonInfo where
  id : String
  benefit_id : Option String
  phone_number : Option String
  email : Option String
  address : Option String

/-- Pydantic `DealInfo` (src/models/data_models.py:48-55). -/
structure DealInfo where
  id : String
  person_id : String
  stage_status : Option StageStatus
  status : String
  assigned_to : Option String
  updated_at : Option String
  name : Option String

/-- An optional string as it lands in a Mongo document. -/
def optStrVal : Option String → PyVal
  | some s => .str s
  | Option.none => .pynone

/-- The `info` dict upserted into the persons collection by
`save_data_to_mongodb` (src/extraction.py:172-184).  `data_update_time`
is `data.get("update_time")` from the listing record.  Note the deal
outcome is stored under the field key `"won_lost"`. -/
def person_info_doc (data_update_time : Option String) (p : PersonInfo)
    (d : DealInfo) : List (String × PyVal) :=
  [("benefit_id", optStrVal p.benefit_id),
   ("phone_number", optStrVal p.phone_number),
   ("updated_at", optStrVal data_update_time),
   ("email", optStrVal p.email),
   ("stage_status", match d.stage_status with
                    | some st => st.to_dict
                    | Option.none => .pynone),
   ("won_lost", .str d.status),
   ("assigned_to", optStrVal d.assigned_to),
   ("name", optStrVal d.name),
   ("address", optStrVal p.address)]

/-! ### src/db/data_access_layer.py -/

namespace DAL

/-- The outcome of the Motor `update_one(..., upsert=True)` call. -/
inductive WriteResult
  | upsertedNew (id : String)
  | updatedExisting
  | dupKeyErr
  | otherErr (msg : String)

/-- The severity of the log line emitted per branch. -/
inductive LogLevel
  | info
  | warning
  | errorLog
deriving DecidableEq

/-- `insert_or_update_document` (src/db/data_access_layer.py:6-24): the
`update_one` result is inspected (`upserted_id` set ⇒ insert log, else
update log); `DuplicateKeyError` is caught and logged as a warning;
every other exception is caught by `except Exception` and logged as an
error.  The `Except` in the result type models exceptions escaping to the
caller; no branch produces one. -/
def insert_or_update_document (w : WriteResult) : Except PyExn (List LogLevel) :=
  match w with
  | .upsertedNew _ => .ok [.info]
  | .updatedExisting => .ok [.info]
  | .dupKeyErr => .ok [.warning]
  | .otherErr _ => .ok [.errorLog]

end DAL

/-! ### Python `str()` on PyVal (used by digisheet's `extract_description`)

Dict rendering follows Python's `str(dict)` shape: single-quoted keys,
`repr` of string values (quoted), `str` of everything else. -/

mutual

/-- `repr(v)` as used for the values inside a rendered dict. -/
def py_str_item : PyVal → String
  | .str s => "\x27" ++ s ++ "\x27"
  | .int n => toString n
  | .pynone => "None"
  | .dict es => "\x7b" ++ py_str_entries es ++ "\x7d"

/-- Comma-separated `'key': value` rendering of dict entries. -/
def py_str_entries : List (String × PyVal) → String
  | [] => ""
  | (k, v) :: rest =>
    "\x27" ++ k ++ "\x27: " ++ py_str_item v ++
      (if rest.isEmpty then "" else ", ") ++ py_str_entries rest

end

/-- Model of Python `str(value)` on the values flowing through the scripts. -/
def py_str : PyVal → String
  | .str s => s
  | .int n => toString n
  | .pynone => "None"
  | .dict es => "\x7b" ++ py_str_entries es ++ "\x7d"

/-! ### src/mailers.py -/

namespace Mailers

/-- One processed sheet row (src/mailers.py:175-180): row index and the
cleaned phone key. -/
structure Row where
  row : Nat
  phone_number : String

/-- One result row appended by `search_data` (src/mailers.py:58-83). -/
structure SearchResult where
  row : Nat
  benefit_id : PyVal
  stage_status : PyVal
  won_lost : PyVal
  assigned_to : PyVal
  name : PyVal
  address : PyVal
  email : PyVal

/-- `extract_description` (src/mailers.py:94-98): a dict containing a
`"description"` key yields that entry, anything else is returned as is. -/
def extract_description (value : PyVal) : PyVal :=
  match value with
  | .dict es =>
    match dict_find es "description" with
    | some d => d
    | Option.none => .dict es
  | v => v

/-- The all-`"N/A"` result row of the miss branch (src/mailers.py:72-83). -/
def miss_result (rowIdx : Nat) : SearchResult :=
  { row := rowIdx
    benefit_id := .str "N/A"
    stage_status := .str "N/A"
    won_lost := .str "N/A"
    assigned_to := .str "N/A"
    name := .str "N/A"
    address := .str "N/A"
    email := .str "N/A" }

/-- The per-row body of `search_data` (src/mailers.py:48-83):
`phone_data.get(phone)` followed by a truthiness test on the match (an
empty dict is falsy), hit branch reading document fields with `""`
defaults, miss branch all `"N/A"`. -/
def search_one (phone_data : List (String × List (String × PyVal)))
    (r : Row) : SearchResult :=
  match dict_find phone_data r.phone_number with
  | some m =>
    if m.isEmpty then miss_result r.row
    else
      { row := r.row
        benefit_id := dict_getD m "benefit_id" (.str "")
        stage_status := extract_description (dict_getD m "stage_status" (.str ""))
        won_lost := extract_description (dict_getD m "won_lost" (.str ""))
        assigned_to := dict_getD m "assigned_to" (.str "")
        name := dict_getD m "name" (.str "")
        address := dict_getD m "address" (.str "")
        email := dict_getD m "email" (.str "") }
  | Option.none => miss_result r.row

/-- `search_data` maps the per-row body over the processed sheet rows. -/
def search_data (sheet_data : List Row)
    (phone_data : List (String × List (String × PyVal))) : List SearchResult :=
  sheet_data.map (search_one phone_data)

end Mailers

/-! ### src/purls.py -/

namespace Purls

/-- One processed sheet row (src/purls.py:169-174). -/
structure Row where
  row : Nat
  benefit_id : String

/-- One result row appended by `search_data` (src/purls.py:57-82). -/
structure SearchResult where
  row : Nat
  phone_number : PyVal
  email : PyVal
  stage_status : PyVal
  won_lost : PyVal
  assigned_to : PyVal
  name : PyVal
  address : PyVal

/-- `extract_description` (src/purls.py:89-93), identical to the mailers one. -/
def extract_description (value : PyVal) : PyVal :=
  match value with
  | .dict es =>
    match dict_find es "description" with
    | some d => d
    | Option.none => .dict es
  | v => v

/-- The all-`"N/A"` result row of the miss branch (src/purls.py:71-82). -/
def miss_result (rowIdx : Nat) : SearchResult :=
  { row := rowIdx
    phone_number := .str "N/A"
    email := .str "N/A"
    stage_status := .str "N/A"
    won_lost := .str "N/A"
    assigned_to := .str "N/A"
    name := .str "N/A"
    address := .str "N/A" }

/-- The per-row body of `search_data` (src/purls.py:47-82).  Note the hit
branch reads the outcome under the key `"won/lost"`
(src/purls.py:63) -- not `"won_lost"`, the key extraction writes. -/
def search_one (benefit_data : List (String × List (String × PyVal)))
    (r : Row) : SearchResult :=
  match dict_find benefit_data r.benefit_id with
  | some m =>
    if m.isEmpty then miss_result r.row
    else
      { row := r.row
        phone_number := dict_getD m "phone_number" (.str "")
        email := dict_getD m "email" (.str "")
        stage_status := extract_description (dict_getD m "stage_status" (.str ""))
        won_lost := extract_description (dict_getD m "won/lost" (.str ""))
        assigned_to := dict_getD m "assigned_to" (.str "")
        name := dict_getD m "name" (.str "")
        address := dict_getD m "address" (.str "") }
  | Option.none => miss_result r.row

/-- `search_data` maps the per-row body over the processed sheet rows. -/
def search_data (sheet_data : List Row)
    (benefit_data : List (String × List (String × PyVal))) : List SearchResult :=
  sheet_data.map (search_one benefit_data)

end Purls

/-! ### src/digisheet.py -/

namespace Digisheet

/-- The result of `datetime.strptime(_, "%Y-%m-%d %H:%M:%S")`. -/
structure PyDateTime where
  year : Nat
  month : Nat
  day : Nat
  hour : Nat
  minute : Nat
  second : Nat
deriving DecidableEq

/-- `datetime` comparison `a < b`: lexicographic on the components. -/
def PyDateTime.ltb (a b : PyDateTime) : Bool :=
  decide (a.year < b.year ∨ (a.year = b.year ∧
    (a.month < b.month ∨ (a.month = b.month ∧
      (a.day < b.day ∨ (a.day = b.day ∧
        (a.hour < b.hour ∨ (a.hour = b.hour ∧
          (a.minute < b.minute ∨ (a.minute = b.minute ∧
            a.second < b.second))))))))))

/-- Numeric value of a run of decimal digit characters. -/
def digits_val (cs : List Char) : Nat :=
  cs.foldl (fun acc c => acc * 10 + (c.toNat - 48)) 0

/-- Split off the leading run of decimal digits. -/
def digit_run (cs : List Char) : List Char × List Char :=
  (cs.takeWhile Char.isDigit, cs.dropWhile Char.isDigit)

/-- Gregorian leap-year test, as `datetime` validates days. -/
def is_leap (y : Nat) : Bool := (y % 4 = 0 && y % 100 ≠ 0) || y % 400 = 0

/-- Days in a month, as `datetime` validates the day field. -/
def days_in_month (y m : Nat) : Nat :=
  if m = 2 then (if is_leap y then 29 else 28)
  else if m = 4 ∨ m = 6 ∨ m = 9 ∨ m = 11 then 30
  else 31

/-- Parse a 1-2 digit numeric field in `[lo, hi]`, returning the value and
the rest of the input. -/
def parse_field2 (lo hi : Nat) (cs : List Char) : Option (Nat × List Char) :=
  let (run, rest) := digit_run cs
  if run.length = 0 ∨ run.length > 2 then Option.none
  else
    let v := digits_val run
    if lo ≤ v ∧ v ≤ hi then some (v, rest) else Option.none

/-- Expect one literal character. -/
def parse_lit (c : Char) : List Char → Option (List Char)
  | [] => Option.none
  | x :: rest => if x = c then some rest else Option.none

/-- Expect a nonempty run of whitespace (a whitespace character in a
`strptime` format string matches `\s+`). -/
def parse_ws (cs : List Char) : Option (List Char) :=
  match cs with
  | [] => Option.none
  | x :: rest =>
    if x.isWhitespace then some (rest.dropWhile Char.isWhitespace) else Option.none

/-- Model of `datetime.strptime(s, "%Y-%m-%d %H:%M:%S")`
(src/digisheet.py:38): `%Y` is exactly four digits (year ≥ 1), `%m`/`%d`/
`%H`/`%M`/`%S` are 1-2 digit fields validated to calendar ranges, the
whole string must be consumed; `Option.none` models the `ValueError`
raised on any mismatch. -/
def strptime_ymd_hms (s : String) : Option PyDateTime := do
  let (yrun, r0) := digit_run s.data
  if yrun.length ≠ 4 then failure
  let y := digits_val yrun
  if y = 0 then failure
  let r1 ← parse_lit '-' r0
  let (m, r2) ← parse_field2 1 12 r1
  let r3 ← parse_lit '-' r2
  let (d, r4) ← parse_field2 1 (days_in_month y m) r3
  let r5 ← parse_ws r4
  let (h, r6) ← parse_field2 0 23 r5
  let r7 ← parse_lit ':' r6
  let (mi, r8) ← parse_field2 0 59 r7
  let r9 ← parse_lit ':' r8
  let (se, r10) ← parse_field2 0 59 r9
  if r10 ≠ [] then failure
  pure ⟨y, m, d, h, mi, se⟩

/-- `clean_email(doc.get("email"))` (src/digisheet.py:36): an absent key or
stored `None` is falsy and yields `None`; a stored string goes through
`clean_email`.  (The store only ever holds strings or `None` in this
field; other shapes would raise in Python and are not modelled.) -/
def clean_email_of : Option PyVal → Option String
  | some (.str s) => clean_email s
  | _ => Option.none

/-- `clean_phone(doc.get("phone_number"))` (src/digisheet.py:37), as above. -/
def clean_phone_of : Option PyVal → Option String
  | some (.str s) => clean_phone s
  | _ => Option.none

/-- `datetime.strptime(doc.get("updated_at", ""), ...)` (src/digisheet.py:38):
an absent key defaults to `""` (which fails to parse); a stored non-string
raises a `TypeError` (also modelled as `Option.none` = raised). -/
def parse_updated_at (doc : List (String × PyVal)) : Option PyDateTime :=
  match dict_getD doc "updated_at" (.str "") with
  | .str s => strptime_ymd_hms s
  | _ => Option.none

/-- An entry of the in-memory email/phone index
(src/digisheet.py:42-45, 49-52): the full document plus its parsed
`updated_at`. -/
structure IndexEntry where
  data : List (String × PyVal)
  updated_at : PyDateTime

/-- One key's index update (src/digisheet.py:40-52): skip falsy keys;
insert when the key is new or the incoming `updated_at` is strictly
later than the stored one (`updated_at > dict[key]["updated_at"]`). -/
def upd_index (idx : List (String × IndexEntry)) (key : Option String)
    (doc : List (String × PyVal)) (upd : PyDateTime) : List (String × IndexEntry) :=
  match key with
  | some k =>
    if py_truthy k then
      match dict_find idx k with
      | Option.none => dict_set idx k ⟨doc, upd⟩
      | some old => if old.updated_at.ltb upd then dict_set idx k ⟨doc, upd⟩ else idx
    else idx
  | Option.none => idx

/-- The loop body of `load_mongodb_data` (src/digisheet.py:35-52) for one
document: parse `updated_at` (raising aborts the whole load), then update
the email index and the phone index independently. -/
def load_step (acc : List (String × IndexEntry) × List (String × IndexEntry))
    (doc : List (String × PyVal)) :
    Except Unit (List (String × IndexEntry) × List (String × IndexEntry)) :=
  match parse_updated_at doc with
  | Option.none => .error ()
  | some upd =>
    .ok (upd_index acc.1 (clean_email_of (dict_find doc "email")) doc upd,
         upd_index acc.2 (clean_phone_of (dict_find doc "phone_number")) doc upd)

/-- `load_mongodb_data` (src/digisheet.py:26-57): fold the loop body over
the collection's documents in iteration order, starting from empty
dicts; any `strptime` failure propagates as the function raising. -/
def load_mongodb_data (docs : List (List (String × PyVal))) :
    Except Unit (List (String × IndexEntry) × List (String × IndexEntry)) :=
  docs.foldlM load_step ([], [])

/-- The email index produced by a successful load. -/
def email_index (docs : List (List (String × PyVal))) :
    Except Unit (List (String × IndexEntry)) :=
  (load_mongodb_data docs).map Prod.fst

/-- The phone index produced by a successful load. -/
def phone_index (docs : List (List (String × PyVal))) :
    Except Unit (List (String × IndexEntry)) :=
  (load_mongodb_data docs).map Prod.snd

/-- One processed sheet row (src/digisheet.py:174-185): row index plus the
cleaned (hence optional) email and phone keys. -/
structure Row where
  row : Nat
  email : Option String
  phone_number : Option String

/-- One result row appended by `search_data` (src/digisheet.py:77-94). -/
structure SearchResult where
  row : Nat
  stage_status : PyVal
  won_lost : PyVal
  assigned_to : PyVal

/-- `extract_description` (src/digisheet.py:99-103): for a dict,
`value.get("description", str(value))`; `None` becomes `""`; anything
else is stringified. -/
def extract_description (value : PyVal) : PyVal :=
  match value with
  | .dict es =>
    match dict_find es "description" with
    | some d => d
    | Option.none => .str (py_str (.dict es))
  | .pynone => .str ""
  | v => .str (py_str v)

/-- The all-`"N/A"` result row of the miss branch (src/digisheet.py:87-94). -/
def miss_result (rowIdx : Nat) : SearchResult :=
  { row := rowIdx
    stage_status := .str "N/A"
    won_lost := .str "N/A"
    assigned_to := .str "N/A" }

/-- `if email and email in email_data: match = email_data[email]["data"]`
(src/digisheet.py:68-69): a falsy or unindexed key contributes no match. -/
def key_match (idx : List (String × IndexEntry)) :
    Option String → Option (List (String × PyVal))
  | some k =>
    if py_truthy k then
      match dict_find idx k with
      | some e => some e.data
      | Option.none => Option.none
    else Option.none
  | Option.none => Option.none

/-- The per-row body of `search_data` (src/digisheet.py:60-94): try the
email key, else (`elif`) the phone key; then `if match:` (an empty
document is falsy) selects the hit or miss branch. -/
def search_one (email_data phone_data : List (String × IndexEntry))
    (r : Row) : SearchResult :=
  let m : Option (List (String × PyVal)) :=
    match key_match email_data r.email with
    | some d => some d
    | Option.none => key_match phone_data r.phone_number
  match m with
  | some doc =>
    if doc.isEmpty then miss_result r.row
    else
      { row := r.row
        stage_status := extract_description (dict_getD doc "stage_status" (.str ""))
        won_lost := extract_description (dict_getD doc "won_lost" (.str ""))
        assigned_to := extract_description (dict_getD doc "assigned_to" (.str "")) }
  | Option.none => miss_result r.row

/-- `search_data` maps the per-row body over the processed sheet rows. -/
def search_data (sheet_data : List Row)
    (email_data phone_data : List (String × IndexEntry)) : List SearchResult :=
  sheet_data.map (search_one email_data phone_data)

end Digisheet

/-! ## Helper lemmas -/

/-- Strict lexicographic `datetime` comparison is asymmetric. -/
theorem PyDateTime_ltb_asymm {a b : Digisheet.PyDateTime}
    (h : a.ltb b = true) : b.ltb a = false := by
  rw [Digisheet.PyDateTime.ltb, decide_eq_true_eq] at h
  rw [Digisheet.PyDateTime.ltb, decide_eq_false_iff_not]
  omega

/-- A successfully cleaned email is a truthy (nonempty) string. -/
theorem clean_email_truthy {s t : String} (h : clean_email s = some t) :
    py_truthy t = true := by
  rw [clean_email] at h
  by_cases hs : py_truthy s = false
  · rw [if_pos hs] at h; exact Option.noConfusion h
  · rw [if_neg hs] at h
    by_cases hm : email_regex_match (py_strip s).data = true
    · rw [if_pos hm] at h
      have ht : py_strip s = t := Option.some.inj h
      subst ht
      simp only [py_truthy, ne_eq, decide_eq_true_eq]
      intro hts
      rw [hts] at hm
      exact absurd hm (by decide)
    · rw [if_neg hm] at h; exact Option.noConfusion h

/-- A successfully cleaned phone is a truthy (nonempty) string. -/
theorem clean_phone_truthy {s t : String} (h : clean_phone s = some t) :
    py_truthy t = true := by
  rw [clean_phone] at h
  by_cases hs : py_truthy s = false
  · rw [if_pos hs] at h; exact Option.noConfusion h
  · rw [if_neg hs] at h
    by_cases hl : (s.data.filter Char.isDigit).length ≥ 10
    · rw [if_pos hl] at h
      have ht : (⟨s.data.filter Char.isDigit⟩ : String) = t := Option.some.inj h
      subst ht
      simp only [py_truthy, ne_eq, decide_eq_true_eq]
      intro hts
      have hnil : s.data.filter Char.isDigit = [] := congrArg String.data hts
      rw [hnil] at hl
      exact absurd hl (by decide)
    · rw [if_neg hl] at h; exact Option.noConfusion h

/-- Every `StageStatus` member is determined by its numeric value. -/
theorem StageStatus_value_injective (a b : StageStatus)
    (h : a.value = b.value) : a = b := by
  cases a <;> cases b <;> first | rfl | exact absurd h (by decide)

/-- The head of a nonempty `dropWhile` result fails the predicate. -/
theorem dropWhile_head_not {α : Type} {p : α → Bool} :
    ∀ {l : List α} {x : α} {xs : List α},
      l.dropWhile p = x :: xs → p x = false := by
  intro l
  induction l with
  | nil => intro x xs h; exact List.noConfusion h
  | cons c cl ih =>
    intro x xs h
    rw [List.dropWhile_cons] at h
    cases hpc : p c with
    | true =>
      rw [hpc, if_pos rfl] at h
      exact ih h
    | false =>
      rw [hpc, if_neg Bool.false_ne_true] at h
      injection h with h1 h2
      subst h1
      exact hpc

/-- `re.match(r"[^@]+@[^@]+\.[^@]+", _)` characterised: the prefix match
succeeds exactly when the character list decomposes as a nonempty
`@`-free part, `'@'`, a nonempty `@`-free part, `'.'`, one further
non-`@` character, and an arbitrary remainder (which may contain
anything, further `'@'`s included). -/
theorem email_regex_match_iff (cs : List Char) :
    email_regex_match cs = true ↔
      ∃ a b c r, cs = a ++ '@' :: (b ++ '.' :: c :: r) ∧ a ≠ [] ∧ b ≠ [] ∧
        (∀ x ∈ a, x ≠ '@') ∧ (∀ x ∈ b, x ≠ '@') ∧ c ≠ '@' := by
  constructor
  · intro h
    rw [email_regex_match, Bool.and_eq_true, Bool.and_eq_true] at h
    obtain ⟨⟨h1, h2⟩, h3⟩ := h
    rw [decide_eq_true_eq] at h1 h3
    rcases he : cs.dropWhile (fun c => c ≠ '@') with _ | ⟨hd, rest⟩
    · rw [he] at h2; exact absurd h2 (by decide)
    · have hhd : hd = '@' := by
        have hf := dropWhile_head_not he
        simpa using hf
      subst hhd
      rw [he] at h3
      simp only [List.tail_cons] at h3
      obtain ⟨n, hn, hget⟩ := List.mem_iff_getElem.mp h3
      rw [List.getElem_dropLast, List.getElem_drop] at hget
      simp only [List.length_dropLast, List.length_drop] at hn
      have hb2 : 1 + n < (rest.takeWhile (fun c => c ≠ '@')).length := by omega
      have hb3 : 1 + n + 1 < (rest.takeWhile (fun c => c ≠ '@')).length := by
        omega
      refine ⟨cs.takeWhile (fun c => c ≠ '@'),
        (rest.takeWhile (fun c => c ≠ '@')).take (1 + n),
        (rest.takeWhile (fun c => c ≠ '@')).get ⟨1 + n + 1, hb3⟩,
        (rest.takeWhile (fun c => c ≠ '@')).drop (1 + n + 1 + 1) ++
          rest.dropWhile (fun c => c ≠ '@'), ?_, h1, ?_, ?_, ?_, ?_⟩
      · have hdropc : (rest.takeWhile (fun c => c ≠ '@')).drop (1 + n) =
            '.' :: ((rest.takeWhile (fun c => c ≠ '@')).get ⟨1 + n + 1, hb3⟩ ::
              (rest.takeWhile (fun c => c ≠ '@')).drop (1 + n + 1 + 1)) := by
          rw [List.drop_eq_getElem_cons hb2, hget,
            List.drop_eq_getElem_cons hb3, List.get_eq_getElem]
        have hbsplit : rest.takeWhile (fun c => c ≠ '@') =
            (rest.takeWhile (fun c => c ≠ '@')).take (1 + n) ++
              '.' :: ((rest.takeWhile (fun c => c ≠ '@')).get ⟨1 + n + 1, hb3⟩ ::
                (rest.takeWhile (fun c => c ≠ '@')).drop (1 + n + 1 + 1)) := by
          conv_lhs =>
            rw [← List.take_append_drop (1 + n)
              (rest.takeWhile (fun c => c ≠ '@'))]
          rw [hdropc]
        have hrest : rest = rest.takeWhile (fun c => c ≠ '@') ++
            rest.dropWhile (fun c => c ≠ '@') :=
          (List.takeWhile_append_dropWhile _ _).symm
        conv_lhs => rw [← List.takeWhile_append_dropWhile
          (fun c => c ≠ '@') cs, he]
        conv_lhs => rw [hrest]
        conv_lhs => rw [hbsplit]
        simp only [List.append_assoc, List.cons_append]
      · intro hnil
        have hlen : ((rest.takeWhile (fun c => c ≠ '@')).take (1 + n)).length
            = 1 + n := by
          rw [List.length_take]
          omega
        rw [hnil, List.length_nil] at hlen
        omega
      · intro x hx
        have hxb := List.mem_takeWhile_imp hx
        simpa using hxb
      · intro x hx
        have hxb : x ∈ rest.takeWhile (fun c => c ≠ '@') :=
          List.take_subset _ _ hx
        have hxp := List.mem_takeWhile_imp hxb
        simpa using hxp
      · have hcmem : (rest.takeWhile (fun c => c ≠ '@')).get ⟨1 + n + 1, hb3⟩ ∈
            rest.takeWhile (fun c => c ≠ '@') := List.get_mem _ _ _
        have hcp := List.mem_takeWhile_imp hcmem
        simpa using hcp
  · rintro ⟨a, b, c, r, rfl, ha, hb, haq, hbq, hc⟩
    have hpa : ∀ x ∈ a, (fun ch : Char => (decide (ch ≠ '@'))) x = true :=
      fun x hx => decide_eq_true (haq x hx)
    have hpb : ∀ x ∈ b, (fun ch : Char => (decide (ch ≠ '@'))) x = true :=
      fun x hx => decide_eq_true (hbq x hx)
    have hatr : (decide (('@' : Char) ≠ '@')) = false := by decide
    have hdotr : (decide (('.' : Char) ≠ '@')) = true := by decide
    have hcc : (decide (c ≠ '@')) = true := decide_eq_true hc
    have htwn : List.takeWhile (fun ch : Char => decide (ch ≠ '@'))
        ('@' :: (b ++ '.' :: c :: r)) = [] := by
      rw [List.takeWhile_cons, hatr, if_neg Bool.false_ne_true]
    have hdwn : List.dropWhile (fun ch : Char => decide (ch ≠ '@'))
        ('@' :: (b ++ '.' :: c :: r)) = '@' :: (b ++ '.' :: c :: r) := by
      rw [List.dropWhile_cons, hatr, if_neg Bool.false_ne_true]
    rw [email_regex_match]
    rw [List.takeWhile_append_of_pos hpa, htwn,
      List.dropWhile_append_of_pos hpa, hdwn]
    simp only [List.append_nil, List.tail_cons, List.isEmpty_cons,
      Bool.not_false, Bool.and_true, Bool.true_and]
    rw [Bool.and_eq_true]
    refine ⟨decide_eq_true ha, decide_eq_true ?_⟩
    rw [List.takeWhile_append_of_pos hpb, List.takeWhile_cons, hdotr,
      if_pos rfl, List.takeWhile_cons, hcc, if_pos rfl]
    rcases b with _ | ⟨b0, btl⟩
    · exact absurd rfl hb
    · simp only [List.cons_append, List.drop_succ_cons, List.drop_zero]
      refine List.mem_iff_getElem.mpr ⟨btl.length, ?_, ?_⟩
      · simp only [List.length_dropLast, List.length_append, List.length_cons]
        omega
      · rw [List.getElem_dropLast,
          List.getElem_append_right (Nat.le_refl btl.length)]
        simp


/-- C6 (counterexample): `re.match` only anchors at the start, so
`clean_email` accepts `"a@b.c@d"` -- a string with TWO `@` characters --
and returns it, where the claim (one `@`, a `.` after it) requires the
result to be absent. -/
theorem clean_email_accepts_extra_at :
    clean_email "a@b.c@d" = some "a@b.c@d" ∧
    ("a@b.c@d").data.count '@' = 2 :=
  ⟨rfl, rfl⟩

/-- C6 (amended): `clean_email` returns the whitespace-trimmed input
exactly when the trimmed input is truthy and a PREFIX of it matches the
`local@domain.tld` shape: a nonempty `@`-free local part, `@`, then --
before any further `@` -- a `.` with at least one non-`@` character on
each side; everything after that prefix (further `@`s included) is
unchecked.  Otherwise, and for falsy input, the result is absent; no
input raises. -/
theorem clean_email_prefix_shape (s : String) :
    (∀ t, clean_email s = some t →
      t = py_strip s ∧ py_truthy s = true ∧
      ∃ a b c r, (py_strip s).data = a ++ '@' :: (b ++ '.' :: c :: r) ∧
        a ≠ [] ∧ b ≠ [] ∧ (∀ x ∈ a, x ≠ '@') ∧ (∀ x ∈ b, x ≠ '@') ∧
        c ≠ '@') ∧
    (py_truthy s = true →
      (∃ a b c r, (py_strip s).data = a ++ '@' :: (b ++ '.' :: c :: r) ∧
        a ≠ [] ∧ b ≠ [] ∧ (∀ x ∈ a, x ≠ '@') ∧ (∀ x ∈ b, x ≠ '@') ∧
        c ≠ '@') →
      clean_email s = some (py_strip s)) := by
  constructor
  · intro t ht
    rw [clean_email] at ht
    by_cases hs : py_truthy s = false
    · rw [if_pos hs] at ht
      exact absurd ht (by simp)
    · rw [if_neg hs] at ht
      by_cases hm : email_regex_match (py_strip s).data = true
      · rw [if_pos hm] at ht
        have heq := Option.some.inj ht
        refine ⟨heq.symm, ?_, (email_regex_match_iff _).mp hm⟩
        cases hb : py_truthy s with
        | false => exact absurd hb hs
        | true => rfl
      · rw [if_neg hm] at ht
        exact absurd ht (by simp)
  · intro hs hex
    rw [clean_email, if_neg (by simp [hs]),
      if_pos ((email_regex_match_iff _).mpr hex)]

/-- C6 (witness): the amended theorem applied to `" a@b.com "`, whose
trimmed form decomposes as `a ++ @ :: (b ++ . :: c :: om)`. -/
theorem clean_email_prefix_shape_witness :
    clean_email " a@b.com " = some (py_strip " a@b.com ") ∧
    py_strip " a@b.com " = "a@b.com" :=
  ⟨(clean_email_prefix_shape " a@b.com ").2 (by decide)
    ⟨['a'], ['b'], 'c', ['o', 'm'], by decide, by decide, by decide,
      by decide, by decide, by decide⟩,
   rfl⟩

/-- `isPrefixOf` holds on a literal prefix. -/
theorem isPrefixOf_append_self (l r : List Char) :
    l.isPrefixOf (l ++ r) = true := by
  induction l with
  | nil => simp [List.isPrefixOf]
  | cons x xs ih => simp [List.cons_append, List.isPrefixOf, ih]

/-- `str.replace` leaves a string without any occurrence of the pattern
unchanged, for any fuel. -/
theorem replace_aux_id {pat rep : List Char} :
    ∀ (fuel : Nat) (cs : List Char), has_occurrence pat cs = false →
      py_replace_aux pat rep fuel cs = cs := by
  intro fuel
  induction fuel with
  | zero => intro cs _; rfl
  | succ m ih =>
    intro cs h
    cases cs with
    | nil => rfl
    | cons c rest =>
      rw [has_occurrence, Bool.or_eq_false_iff] at h
      obtain ⟨h1, h2⟩ := h
      simp only [py_replace_aux]
      rw [h1, if_neg Bool.false_ne_true, ih rest h2]

/-- `str.replace` on a string that starts with the (nonempty) pattern and
contains no further occurrence: the leading occurrence is replaced, the
rest kept. -/
theorem replace_aux_leading {pat r rep : List Char} (hp : pat ≠ [])
    (hocc : has_occurrence pat r = false) :
    py_replace_aux pat rep ((pat ++ r).length) (pat ++ r) = rep ++ r := by
  cases pat with
  | nil => exact absurd rfl hp
  | cons p0 ptl =>
    have hpre := isPrefixOf_append_self (p0 :: ptl) r
    simp only [List.cons_append, List.length_cons] at hpre ⊢
    simp only [py_replace_aux]
    rw [hpre, if_pos rfl]
    simp only [List.length_cons, List.drop_succ_cons, List.drop_left]
    rw [replace_aux_id _ _ hocc]

/-- C7 (counterexample): `str.replace` removes ALL occurrences of
`"PURL "`, not only the leading prefix: on `"PURL 1 PURL 2"` the code
returns `"1 2"`, where the claim (strip the leading prefix, leave the
remainder unchanged) requires `"1 PURL 2"`. -/
theorem clean_benefit_id_removes_all_occurrences :
    clean_benefit_id "PURL 1 PURL 2" = "1 2" ∧
    clean_benefit_id "PURL 1 PURL 2" ≠ "1 PURL 2" := by
  exact ⟨rfl, by decide⟩

/-- C7 (amended): `clean_benefit_id` trims surrounding whitespace and never
rejects; when the trimmed string does not start with `"PURL "` it is
returned unchanged; when it does start with `"PURL "`, EVERY occurrence
of `"PURL "` in it is removed -- in particular, when the remainder after
the leading `"PURL "` contains no further occurrence, exactly the prefix
is stripped.  The claim's own examples hold. -/
theorem clean_benefit_id_spec (s r : String) :
    (("PURL ".data).isPrefixOf (py_strip s).data = false →
      clean_benefit_id s = py_strip s) ∧
    ((py_strip s).data = "PURL ".data ++ r.data →
      has_occurrence ("PURL ".data) r.data = false →
      clean_benefit_id s = r) ∧
    clean_benefit_id "PURL 12345" = "12345" ∧
    clean_benefit_id " 999 " = "999" := by
  refine ⟨?_, ?_, rfl, rfl⟩
  · intro h
    simp only [clean_benefit_id]
    rw [h, if_neg Bool.false_ne_true]
  · intro hdec hocc
    simp only [clean_benefit_id, py_replace]
    have hpre := isPrefixOf_append_self ("PURL ".data) r.data
    rw [hdec, hpre, if_pos rfl, replace_aux_leading (by decide) hocc]
    rfl

/-- C7 (witness): the amended theorem applied to `" PURL 7x "` (leading
prefix stripped after trimming) and `"abc"` (no prefix, unchanged). -/
theorem clean_benefit_id_spec_witness :
    clean_benefit_id " PURL 7x " = "7x" ∧
    clean_benefit_id "abc" = "abc" :=
  ⟨(clean_benefit_id_spec " PURL 7x " "7x").2.1 (by decide) (by decide),
   (clean_benefit_id_spec "abc" "").1 (by decide)⟩

/-! ## Claim theorems -/

/-- C1 (counterexample): the retry wrapper on the remote calls retries on
ANY exception, not only read timeouts.  With a first attempt failing with
a non-200 HTTP status error and a second attempt succeeding, the wrapper
as written (`pipedrive_retry`, tenacity defaults) runs a second attempt
and returns its success, whereas the claimed policy (retry only on
read-timeout) would have stopped fatally after one attempt. -/
theorem retry_nontimeout_retried :
    (pipedrive_retry (fun k => if k = 1 then .raised (.httpStatusError 500)
        else .ok (0 : Nat))).attempts = 2 ∧
    (pipedrive_retry (fun k => if k = 1 then .raised (.httpStatusError 500)
        else .ok (0 : Nat))).result = .ok 0 ∧
    (tenacity_retry 3 300 retry_only_read_timeout
      (fun k => if k = 1 then .raised (.httpStatusError 500)
        else .ok (0 : Nat))).attempts = 1 ∧
    (tenacity_retry 3 300 retry_only_read_timeout
      (fun k => if k = 1 then .raised (.httpStatusError 500)
        else .ok (0 : Nat))).result = .error (.httpStatusError 500) :=
  ⟨rfl, rfl, rfl, rfl⟩

/-- C1 (amended): every wrapped remote call makes at most 3 attempts with a
fixed 300-second delay between attempts; an attempt is retried on ANY
exception -- read timeouts and non-timeout failures such as non-200 HTTP
status errors alike -- and an exception propagates out of the wrapper only
after all 3 attempts have failed, carrying the last attempt's exception. -/
theorem retry_wrapper_behavior {α : Type} (f : Nat → AttemptResult α) :
    (pipedrive_retry f).attempts ≤ 3 ∧
    (pipedrive_retry f).totalDelay = 300 * ((pipedrive_retry f).attempts - 1) ∧
    (∀ v, (pipedrive_retry f).result = .ok v →
      f (pipedrive_retry f).attempts = .ok v) ∧
    (∀ e, (pipedrive_retry f).result = .error e →
      (pipedrive_retry f).attempts = 3 ∧ f 3 = .raised e ∧
      ∀ j, 1 ≤ j → j ≤ 3 → ∃ e2, f j = .raised e2) ∧
    (∀ e, f 1 = .raised e → 2 ≤ (pipedrive_retry f).attempts) := by
  rcases h1 : f 1 with v1 | e1
  · have hr : pipedrive_retry f = ⟨.ok v1, 1, 0⟩ := by
      simp [pipedrive_retry, tenacity_retry, tenacity_retry_go, h1]
    rw [hr]
    refine ⟨(by omega : (1 : Nat) ≤ 3), (by omega : (0 : Nat) = 300 * (1 - 1)),
      ?_, ?_, ?_⟩
    · intro v hv
      have h : v1 = v := Except.ok.inj hv
      subst h
      exact h1
    · intro e he
      exact Except.noConfusion he
    · intro e he
      exact AttemptResult.noConfusion he
  · rcases h2 : f 2 with v2 | e2
    · have hr : pipedrive_retry f = ⟨.ok v2, 2, 300⟩ := by
        simp [pipedrive_retry, tenacity_retry, tenacity_retry_go,
          retry_any_exception, h1, h2]
      rw [hr]
      refine ⟨(by omega : (2 : Nat) ≤ 3), (by omega : (300 : Nat) = 300 * (2 - 1)),
        ?_, ?_, ?_⟩
      · intro v hv
        have h : v2 = v := Except.ok.inj hv
        subst h
        exact h2
      · intro e he
        exact Except.noConfusion he
      · intro e _
        exact (by omega : (2 : Nat) ≤ 2)
    · rcases h3 : f 3 with v3 | e3
      · have hr : pipedrive_retry f = ⟨.ok v3, 3, 600⟩ := by
          simp [pipedrive_retry, tenacity_retry, tenacity_retry_go,
            retry_any_exception, h1, h2, h3]
        rw [hr]
        refine ⟨(by omega : (3 : Nat) ≤ 3), (by omega : (600 : Nat) = 300 * (3 - 1)),
          ?_, ?_, ?_⟩
        · intro v hv
          have h : v3 = v := Except.ok.inj hv
          subst h
          exact h3
        · intro e he
          exact Except.noConfusion he
        · intro e _
          exact (by omega : (2 : Nat) ≤ 3)
      · have hr : pipedrive_retry f = ⟨.error e3, 3, 600⟩ := by
          simp [pipedrive_retry, tenacity_retry, tenacity_retry_go,
            retry_any_exception, h1, h2, h3]
        rw [hr]
        refine ⟨(by omega : (3 : Nat) ≤ 3), (by omega : (600 : Nat) = 300 * (3 - 1)),
          ?_, ?_, ?_⟩
        · intro v hv
          exact Except.noConfusion hv
        · intro e he
          have h : e3 = e := Except.error.inj he
          refine ⟨rfl, congrArg AttemptResult.raised h, ?_⟩
          intro j hj1 hj3
          interval_cases j
          · exact ⟨_, h1⟩
          · exact ⟨_, h2⟩
          · exact ⟨_, h3⟩
        · intro e _
          exact (by omega : (2 : Nat) ≤ 3)

/-- C1 (witness): a call timing out on all three attempts runs exactly 3
attempts and propagates the timeout. -/
theorem retry_wrapper_behavior_witness :
    (pipedrive_retry (fun _ => AttemptResult.raised .readTimeout :
        Nat → AttemptResult Nat)).attempts = 3 ∧
    (fun _ => AttemptResult.raised .readTimeout : Nat → AttemptResult Nat) 3 =
      .raised PyExn.readTimeout :=
  ⟨((retry_wrapper_behavior (fun _ => AttemptResult.raised .readTimeout :
      Nat → AttemptResult Nat)).2.2.2.1 .readTimeout rfl).1,
   ((retry_wrapper_behavior (fun _ => AttemptResult.raised .readTimeout :
      Nat → AttemptResult Nat)).2.2.2.1 .readTimeout rfl).2.1⟩

/-- C2: `StageStatus.from_number` is total-or-error over the integers:
every `n` in `0..7` maps to the unique member whose value is `n`, whose
display label is the one fixed in the `descriptions` table; every integer
outside `0..7` is a hard error (`ValueError`, modelled `none`) -- no
fallback label. -/
theorem stage_status_total_or_error (n : Int) :
    (0 ≤ n ∧ n ≤ 7 →
      ∃ s, StageStatus.from_number n = some s ∧ (s.value : Int) = n ∧
        (∀ s2 : StageStatus, (s2.value : Int) = n → s2 = s) ∧
        StageStatus.descriptions s.value = some s.description) ∧
    (¬(0 ≤ n ∧ n ≤ 7) → StageStatus.from_number n = Option.none) := by
  constructor
  · rintro ⟨hlo, hhi⟩
    have huniq : ∀ (s : StageStatus), ∀ s2 : StageStatus,
        (s2.value : Int) = (s.value : Int) → s2 = s := by
      intro s s2 h
      exact StageStatus_value_injective s2 s (by exact_mod_cast h)
    interval_cases n
    · exact ⟨.TRYING_TO_CONTACT, rfl, by decide,
        fun s2 h => huniq _ s2 (by rw [h]; decide), rfl⟩
    · exact ⟨.TOOK_APP, rfl, by decide,
        fun s2 h => huniq _ s2 (by rw [h]; decide), rfl⟩
    · exact ⟨.REC_DOCS_LENDER_CALL, rfl, by decide,
        fun s2 h => huniq _ s2 (by rw [h]; decide), rfl⟩
    · exact ⟨.FINANCIAL_SCHED, rfl, by decide,
        fun s2 h => huniq _ s2 (by rw [h]; decide), rfl⟩
    · exact ⟨.COMPLIANCE_SCHED, rfl, by decide,
        fun s2 h => huniq _ s2 (by rw [h]; decide), rfl⟩
    · exact ⟨.PENDING_PAYMENT, rfl, by decide,
        fun s2 h => huniq _ s2 (by rw [h]; decide), rfl⟩
    · exact ⟨.PAID, rfl, by decide,
        fun s2 h => huniq _ s2 (by rw [h]; decide), rfl⟩
    · exact ⟨.SUBMITTED_TO_PROCESSING, rfl, by decide,
        fun s2 h => huniq _ s2 (by rw [h]; decide), rfl⟩
  · intro h
    rw [StageStatus.from_number]
    split_ifs with h0 h1 h2 h3 h4 h5 h6 h7 <;> first | rfl | omega

/-- C2 (witness): the theorem applied at the in-range input 6 and the
out-of-range input 9. -/
theorem stage_status_total_or_error_witness :
    (∃ s, StageStatus.from_number 6 = some s ∧ (s.value : Int) = 6 ∧
      (∀ s2 : StageStatus, (s2.value : Int) = 6 → s2 = s) ∧
      StageStatus.descriptions s.value = some s.description) ∧
    StageStatus.from_number 9 = Option.none :=
  ⟨(stage_status_total_or_error 6).1 (by decide),
   (stage_status_total_or_error 9).2 (by decide)⟩

/-- Evaluation of `get_total_pages` on the two status classes. -/
theorem get_total_pages_eq (status total : Nat) :
    get_total_pages status total =
      if 200 ≤ status ∧ status ≤ 299 then
        .ok ((List.range ((total + 99) / 100)).map (fun p => page_url (p * 100)))
      else .error () := by
  unfold get_total_pages raise_for_status
  by_cases h200 : status = 200
  · subst h200
    rw [if_neg (by omega), if_pos (by omega)]
    rfl
  · rw [if_pos h200]
    by_cases h2xx : 200 ≤ status ∧ status ≤ 299
    · rw [if_pos h2xx, if_pos h2xx]
      rfl
    · rw [if_neg h2xx, if_neg h2xx]
      rfl

/-- C3: `get_total_pages` with a successful summary response reporting
`total_count = t` returns exactly `ceil(t / 100)` page URLs, the `i`-th
carrying offset `100 * i`; a non-2xx summary response is a fatal error. -/
theorem get_total_pages_spec (status total : Nat) :
    (200 ≤ status ∧ status ≤ 299 →
      ∃ pages, get_total_pages status total = .ok pages ∧
        pages.length = (total + 99) / 100 ∧
        ∀ i, ∀ h : i < pages.length, pages.get ⟨i, h⟩ = page_url (100 * i)) ∧
    (¬(200 ≤ status ∧ status ≤ 299) →
      get_total_pages status total = .error ()) := by
  constructor
  · intro hok
    refine ⟨(List.range ((total + 99) / 100)).map (fun p => page_url (p * 100)),
      ?_, by simp, ?_⟩
    · rw [get_total_pages_eq, if_pos hok]
    · intro i h
      rw [List.get_eq_getElem]
      simp only [List.getElem_map, List.getElem_range]
      rw [Nat.mul_comm]
  · intro hbad
    rw [get_total_pages_eq, if_neg hbad]

/-- C3 (witness): for `total_count = 250` the theorem yields exactly 3
pages with offsets 0, 100, 200, and concretely the three URLs; a 404
summary response is fatal. -/
theorem get_total_pages_spec_witness :
    get_total_pages 200 250 = .ok [page_url 0, page_url 100, page_url 200] ∧
    (∃ pages, get_total_pages 200 250 = .ok pages ∧
      pages.length = (250 + 99) / 100 ∧
      ∀ i, ∀ h : i < pages.length, pages.get ⟨i, h⟩ = page_url (100 * i)) ∧
    get_total_pages 404 250 = .error () :=
  ⟨rfl, (get_total_pages_spec 200 250).1 (by decide),
   (get_total_pages_spec 404 250).2 (by decide)⟩

/-- C4: a processed sheet row whose key matches no entry of the in-memory
store index yields, in each reconciliation variant (mailers, purls,
digisheet), a result whose every output field is the literal string
`"N/A"`, with only the carried row index taken from the row. -/
theorem search_miss_all_na
    (pdm : List (String × List (String × PyVal))) (rm : Mailers.Row)
    (bd : List (String × List (String × PyVal))) (rp : Purls.Row)
    (ed pd : List (String × Digisheet.IndexEntry)) (rd : Digisheet.Row) :
    (dict_find pdm rm.phone_number = Option.none →
      Mailers.search_one pdm rm =
        { row := rm.row, benefit_id := .str "N/A", stage_status := .str "N/A",
          won_lost := .str "N/A", assigned_to := .str "N/A",
          name := .str "N/A", address := .str "N/A", email := .str "N/A" }) ∧
    (dict_find bd rp.benefit_id = Option.none →
      Purls.search_one bd rp =
        { row := rp.row, phone_number := .str "N/A", email := .str "N/A",
          stage_status := .str "N/A", won_lost := .str "N/A",
          assigned_to := .str "N/A", name := .str "N/A",
          address := .str "N/A" }) ∧
    ((∀ k, rd.email = some k → dict_find ed k = Option.none) →
     (∀ k, rd.phone_number = some k → dict_find pd k = Option.none) →
      Digisheet.search_one ed pd rd =
        { row := rd.row, stage_status := .str "N/A", won_lost := .str "N/A",
          assigned_to := .str "N/A" }) := by
  refine ⟨?_, ?_, ?_⟩
  · intro h
    simp [Mailers.search_one, h, Mailers.miss_result]
  · intro h
    simp [Purls.search_one, h, Purls.miss_result]
  · intro he hp
    have h1 : Digisheet.key_match ed rd.email = Option.none := by
      cases hre : rd.email with
      | none => rfl
      | some k => simp [Digisheet.key_match, he k hre]
    have h2 : Digisheet.key_match pd rd.phone_number = Option.none := by
      cases hrp : rd.phone_number with
      | none => rfl
      | some k => simp [Digisheet.key_match, hp k hrp]
    simp [Digisheet.search_one, h1, h2, Digisheet.miss_result]

/-- C4 (witness): the theorem applied with empty indexes and concrete rows
for all three variants. -/
theorem search_miss_all_na_witness :
    Mailers.search_one [] ⟨2, "5551234567"⟩ =
      { row := 2, benefit_id := .str "N/A", stage_status := .str "N/A",
        won_lost := .str "N/A", assigned_to := .str "N/A",
        name := .str "N/A", address := .str "N/A", email := .str "N/A" } ∧
    Purls.search_one [] ⟨3, "999"⟩ =
      { row := 3, phone_number := .str "N/A", email := .str "N/A",
        stage_status := .str "N/A", won_lost := .str "N/A",
        assigned_to := .str "N/A", name := .str "N/A",
        address := .str "N/A" } ∧
    Digisheet.search_one [] [] ⟨4, some "a@b.com", Option.none⟩ =
      { row := 4, stage_status := .str "N/A", won_lost := .str "N/A",
        assigned_to := .str "N/A" } :=
  ⟨(search_miss_all_na [] ⟨2, "5551234567"⟩ [] ⟨3, "999"⟩ [] []
      ⟨4, some "a@b.com", Option.none⟩).1 rfl,
   (search_miss_all_na [] ⟨2, "5551234567"⟩ [] ⟨3, "999"⟩ [] []
      ⟨4, some "a@b.com", Option.none⟩).2.1 rfl,
   (search_miss_all_na [] ⟨2, "5551234567"⟩ [] ⟨3, "999"⟩ [] []
      ⟨4, some "a@b.com", Option.none⟩).2.2 (fun _ _ => rfl)
      (fun _ h => Option.noConfusion h)⟩

/-- C9: extraction stores the deal outcome under the key `"won_lost"`
(`person_info_doc`), but the purls hit branch reads `"won/lost"`; hence
for any stored document written by extraction that a sheet row matches,
the result's won/lost output field is the empty string -- the stored
WON/LOST value (present under `"won_lost"`) is never emitted. -/
theorem purls_stored_outcome_never_emitted
    (ut : Option String) (p : PersonInfo) (d : DealInfo)
    (bd : List (String × List (String × PyVal))) (r : Purls.Row)
    (h : dict_find bd r.benefit_id = some (person_info_doc ut p d)) :
    (Purls.search_one bd r).won_lost = .str "" ∧
    dict_find (person_info_doc ut p d) "won/lost" = Option.none ∧
    dict_find (person_info_doc ut p d) "won_lost" = some (.str d.status) := by
  refine ⟨?_, ?_, ?_⟩
  · simp only [Purls.search_one]
    rw [h]
    simp [person_info_doc, Purls.extract_description, dict_getD, dict_find,
      List.find?, Purls.miss_result]
  · simp [person_info_doc, dict_find, List.find?]
  · simp [person_info_doc, dict_find, List.find?]

/-- C9 (witness): a concrete extraction-written document matched through a
concrete benefit-id index. -/
theorem purls_stored_outcome_never_emitted_witness :
    (Purls.search_one
      [("B9", person_info_doc (some "2024-01-01 00:00:00")
        ⟨"17", some "B9", some "5551234567", some "a@b.com", some "12 Main St"⟩
        ⟨"99", "17", some .PAID, "WON", some "Agent",
          some "2024-01-01 00:00:00", some "John"⟩)]
      ⟨2, "B9"⟩).won_lost = .str "" ∧
    dict_find (person_info_doc (some "2024-01-01 00:00:00")
      ⟨"17", some "B9", some "5551234567", some "a@b.com", some "12 Main St"⟩
      ⟨"99", "17", some .PAID, "WON", some "Agent",
        some "2024-01-01 00:00:00", some "John"⟩) "won/lost" = Option.none ∧
    dict_find (person_info_doc (some "2024-01-01 00:00:00")
      ⟨"17", some "B9", some "5551234567", some "a@b.com", some "12 Main St"⟩
      ⟨"99", "17", some .PAID, "WON", some "Agent",
        some "2024-01-01 00:00:00", some "John"⟩) "won_lost" =
      some (.str "WON") :=
  purls_stored_outcome_never_emitted (some "2024-01-01 00:00:00")
    ⟨"17", some "B9", some "5551234567", some "a@b.com", some "12 Main St"⟩
    ⟨"99", "17", some .PAID, "WON", some "Agent",
      some "2024-01-01 00:00:00", some "John"⟩
    _ ⟨2, "B9"⟩ rfl

/-- A key produced by `clean_email` on a stored value is truthy. -/
theorem clean_email_of_truthy {v : Option PyVal} {k : String}
    (h : Digisheet.clean_email_of v = some k) : py_truthy k = true := by
  cases v with
  | none => exact Option.noConfusion h
  | some pv =>
    cases pv with
    | str s => exact clean_email_truthy h
    | int n => exact Option.noConfusion h
    | pynone => exact Option.noConfusion h
    | dict es => exact Option.noConfusion h

/-- A key produced by `clean_phone` on a stored value is truthy. -/
theorem clean_phone_of_truthy {v : Option PyVal} {k : String}
    (h : Digisheet.clean_phone_of v = some k) : py_truthy k = true := by
  cases v with
  | none => exact Option.noConfusion h
  | some pv =>
    cases pv with
    | str s => exact clean_phone_truthy h
    | int n => exact Option.noConfusion h
    | pynone => exact Option.noConfusion h
    | dict es => exact Option.noConfusion h

/-- Inserting a truthy key into an empty index. -/
theorem upd_index_nil {k : String} (hkt : py_truthy k = true)
    (doc : List (String × PyVal)) (t : Digisheet.PyDateTime) :
    Digisheet.upd_index [] (some k) doc t = [(k, ⟨doc, t⟩)] := by
  simp [Digisheet.upd_index, hkt, dict_find, dict_set]

/-- Re-inserting the same truthy key with a strictly later timestamp
overwrites the stored entry. -/
theorem upd_index_later {k : String} (hkt : py_truthy k = true)
    {t1 t2 : Digisheet.PyDateTime} (hlt : t1.ltb t2 = true)
    (d1 d2 : List (String × PyVal)) :
    Digisheet.upd_index [(k, ⟨d1, t1⟩)] (some k) d2 t2 = [(k, ⟨d2, t2⟩)] := by
  simp [Digisheet.upd_index, hkt, dict_find, List.find?, dict_set, hlt]

/-- Re-inserting the same truthy key with a strictly earlier timestamp
leaves the stored entry in place. -/
theorem upd_index_earlier {k : String} (hkt : py_truthy k = true)
    {t1 t2 : Digisheet.PyDateTime} (hlt : t1.ltb t2 = true)
    (d1 d2 : List (String × PyVal)) :
    Digisheet.upd_index [(k, ⟨d2, t2⟩)] (some k) d1 t1 = [(k, ⟨d2, t2⟩)] := by
  simp [Digisheet.upd_index, hkt, dict_find, List.find?,
    PyDateTime_ltb_asymm hlt]

/-- C5: in digisheet's index construction, two stored documents with the
same cleaned email key (respectively the same cleaned phone key) and
different parsed `updated_at` timestamps resolve, in either iteration
order, to the document with the later timestamp. -/
theorem digisheet_last_write_wins
    (d1 d2 : List (String × PyVal)) (t1 t2 : Digisheet.PyDateTime)
    (h1 : Digisheet.parse_updated_at d1 = some t1)
    (h2 : Digisheet.parse_updated_at d2 = some t2)
    (hlt : t1.ltb t2 = true) :
    (∀ k, Digisheet.clean_email_of (dict_find d1 "email") = some k →
          Digisheet.clean_email_of (dict_find d2 "email") = some k →
          Digisheet.email_index [d1, d2] = .ok [(k, ⟨d2, t2⟩)] ∧
          Digisheet.email_index [d2, d1] = .ok [(k, ⟨d2, t2⟩)]) ∧
    (∀ k, Digisheet.clean_phone_of (dict_find d1 "phone_number") = some k →
          Digisheet.clean_phone_of (dict_find d2 "phone_number") = some k →
          Digisheet.phone_index [d1, d2] = .ok [(k, ⟨d2, t2⟩)] ∧
          Digisheet.phone_index [d2, d1] = .ok [(k, ⟨d2, t2⟩)]) := by
  constructor
  · intro k he1 he2
    have hkt : py_truthy k = true := clean_email_of_truthy he1
    constructor
    · simp only [Digisheet.email_index, Digisheet.load_mongodb_data,
        List.foldlM_cons, List.foldlM_nil, Digisheet.load_step, h1, h2,
        he1, he2, Bind.bind, Except.bind, Except.map,
        upd_index_nil hkt, upd_index_later hkt hlt]
      rfl
    · simp only [Digisheet.email_index, Digisheet.load_mongodb_data,
        List.foldlM_cons, List.foldlM_nil, Digisheet.load_step, h1, h2,
        he1, he2, Bind.bind, Except.bind, Except.map,
        upd_index_nil hkt, upd_index_earlier hkt hlt]
      rfl
  · intro k hp1 hp2
    have hkt : py_truthy k = true := clean_phone_of_truthy hp1
    constructor
    · simp only [Digisheet.phone_index, Digisheet.load_mongodb_data,
        List.foldlM_cons, List.foldlM_nil, Digisheet.load_step, h1, h2,
        hp1, hp2, Bind.bind, Except.bind, Except.map,
        upd_index_nil hkt, upd_index_later hkt hlt]
      rfl
    · simp only [Digisheet.phone_index, Digisheet.load_mongodb_data,
        List.foldlM_cons, List.foldlM_nil, Digisheet.load_step, h1, h2,
        hp1, hp2, Bind.bind, Except.bind, Except.map,
        upd_index_nil hkt, upd_index_earlier hkt hlt]
      rfl

/-- C5 (witness): two concrete documents sharing an email and a phone,
with the second one day later, win the index in both orders. -/
theorem digisheet_last_write_wins_witness :
    Digisheet.email_index
      [[("email", PyVal.str "a@b.com"),
        ("phone_number", PyVal.str "555-123-4567"),
        ("updated_at", PyVal.str "2023-01-01 10:00:00")],
       [("email", PyVal.str "a@b.com"),
        ("phone_number", PyVal.str "555-123-4567"),
        ("updated_at", PyVal.str "2023-01-02 10:00:00")]] =
      .ok [("a@b.com",
        ⟨[("email", PyVal.str "a@b.com"),
          ("phone_number", PyVal.str "555-123-4567"),
          ("updated_at", PyVal.str "2023-01-02 10:00:00")],
         ⟨2023, 1, 2, 10, 0, 0⟩⟩)] ∧
    Digisheet.email_index
      [[("email", PyVal.str "a@b.com"),
        ("phone_number", PyVal.str "555-123-4567"),
        ("updated_at", PyVal.str "2023-01-02 10:00:00")],
       [("email", PyVal.str "a@b.com"),
        ("phone_number", PyVal.str "555-123-4567"),
        ("updated_at", PyVal.str "2023-01-01 10:00:00")]] =
      .ok [("a@b.com",
        ⟨[("email", PyVal.str "a@b.com"),
          ("phone_number", PyVal.str "555-123-4567"),
          ("updated_at", PyVal.str "2023-01-02 10:00:00")],
         ⟨2023, 1, 2, 10, 0, 0⟩⟩)] :=
  (digisheet_last_write_wins
    [("email", PyVal.str "a@b.com"),
     ("phone_number", PyVal.str "555-123-4567"),
     ("updated_at", PyVal.str "2023-01-01 10:00:00")]
    [("email", PyVal.str "a@b.com"),
     ("phone_number", PyVal.str "555-123-4567"),
     ("updated_at", PyVal.str "2023-01-02 10:00:00")]
    ⟨2023, 1, 1, 10, 0, 0⟩ ⟨2023, 1, 2, 10, 0, 0⟩
    rfl rfl rfl).1 "a@b.com" rfl rfl

/-- A `strptime` failure on any document aborts the whole fold, whatever
index state has been accumulated so far. -/
theorem load_fold_error (docs : List (List (String × PyVal))) :
    ∀ acc, (∃ d ∈ docs, Digisheet.parse_updated_at d = Option.none) →
      docs.foldlM Digisheet.load_step acc = .error () := by
  induction docs with
  | nil =>
    intro acc h
    obtain ⟨d, hd, _⟩ := h
    exact absurd hd (List.not_mem_nil d)
  | cons x xs ih =>
    intro acc h
    obtain ⟨d, hd, hp⟩ := h
    rw [List.foldlM_cons]
    rcases List.mem_cons.mp hd with rfl | hmem
    · simp [Digisheet.load_step, hp, Bind.bind, Except.bind]
    · cases hstep : Digisheet.load_step acc x with
      | error e =>
        simp [hstep, Bind.bind, Except.bind]
      | ok acc2 =>
        simp only [hstep, Bind.bind, Except.bind]
        exact ih acc2 ⟨d, hmem, hp⟩

/-- C10: `load_mongodb_data` parses every stored document's `updated_at`
with the fixed format `%Y-%m-%d %H:%M:%S` unconditionally; if any stored
document's `updated_at` is absent (so the `""` default is parsed) or not
in that format, the whole load raises before any index is returned. -/
theorem digisheet_parse_abort (docs : List (List (String × PyVal)))
    (h : ∃ d ∈ docs, Digisheet.parse_updated_at d = Option.none) :
    Digisheet.load_mongodb_data docs = .error () ∧
    Digisheet.email_index docs = .error () ∧
    Digisheet.phone_index docs = .error () := by
  have hl : Digisheet.load_mongodb_data docs = .error () :=
    load_fold_error docs ([], []) h
  refine ⟨hl, ?_, ?_⟩
  · rw [Digisheet.email_index, hl]; rfl
  · rw [Digisheet.phone_index, hl]; rfl

/-- C10 (witness): a document with no `updated_at` field at all (so
`doc.get("updated_at", "")` yields `""`, which `strptime` rejects) aborts
the load. -/
theorem digisheet_parse_abort_witness :
    Digisheet.load_mongodb_data [[("email", PyVal.str "x@y.z")]] =
      .error () ∧
    Digisheet.email_index [[("email", PyVal.str "x@y.z")]] = .error () ∧
    Digisheet.phone_index [[("email", PyVal.str "x@y.z")]] = .error () :=
  digisheet_parse_abort [[("email", PyVal.str "x@y.z")]]
    ⟨[("email", PyVal.str "x@y.z")], List.mem_singleton.mpr rfl, rfl⟩

/-- C8: `insert_or_update_document` never propagates an exception: every
write outcome -- successful upsert, successful update, duplicate-key
error, any other error -- returns normally; the duplicate-key case logs a
warning and any other failure logs an error, both swallowed. -/
theorem insert_or_update_never_raises (w : DAL.WriteResult) :
    (∃ logs, DAL.insert_or_update_document w = .ok logs) ∧
    DAL.insert_or_update_document .dupKeyErr = .ok [.warning] ∧
    (∀ m, DAL.insert_or_update_document (.otherErr m) = .ok [.errorLog]) ∧
    (∀ e, DAL.insert_or_update_document w ≠ .error e) := by
  refine ⟨?_, rfl, fun m => rfl, ?_⟩
  · cases w <;> exact ⟨_, rfl⟩
  · intro e
    cases w <;> exact fun h => Except.noConfusion h

/-- C8 (witness): the theorem applied at a duplicate-key outcome and a
generic failure outcome. -/
theorem insert_or_update_never_raises_witness :
    (∃ logs, DAL.insert_or_update_document .dupKeyErr = .ok logs) ∧
    (∃ logs, DAL.insert_or_update_document
      (.otherErr "socket closed") = .ok logs) :=
  ⟨(insert_or_update_never_raises .dupKeyErr).1,
   (insert_or_update_never_raises (.otherErr "socket closed")).1⟩

end Pipedrive
